import Mathlib

/-!
Verification of the persistence layer (`Connection` in `reservation/database.py`)
of the reservation-api repository.

The embedding models:
* the relational store (Users / Rooms / Bookings tables) as lists of rows;
* one live session handle (`DBHandle`) with its committed and current store
  contents, the foreign-keys pragma, a closed flag, and a `failing` flag that
  models a storage engine whose statement executions report `sqlite3.Error`
  (commit/close themselves succeed in this failure model);
* the Python `Connection` object, whose `con` attribute may be a handle or
  null (`Option DBHandle`); note that `close()` never clears the attribute,
  exactly as in the source;
* a small fragment of SQLite's SQL (tokenizer with single-quote string
  literals and `''` escapes, `SELECT * FROM t [WHERE c]`, `DELETE FROM t
  WHERE c`, `UPDATE t SET a = ?,... WHERE c`, with conditions that are
  equality atoms and `OR` chains, three-valued NULL logic, prepare-time
  column resolution, and positional `?` binding).  This fragment covers every
  query text the module builds, including the raw string-interpolated filter
  of `get_bookings` and the malformed statements of `delete_booking` and
  `modify_room`.  The constant, well-formed, fully parameterized queries of
  `add_user` / `delete_user` (equality on a bound value) are translated
  directly to their relational meaning.

Errors: `sqlOperational` and `sqlProgramming` model `sqlite3.OperationalError`
and `sqlite3.ProgrammingError` (both subclasses of `sqlite3.Error`, hence
caught by `except sqlite3.Error`); `storeFailure` models a generic
`sqlite3.Error` reported by a failing engine; `attributeError` models
Python's `AttributeError` (not a `sqlite3.Error`).
-/

namespace Reservation

/-- Errors a `Connection` method can raise (Python exceptions). -/
inductive PyError where
  | sqlOperational (msg : String)
  | sqlProgramming (msg : String)
  | storeFailure
  | attributeError
  deriving DecidableEq, Repr

/-- Message sqlite3 raises when operating on a closed connection. -/
def closedMsg : String := "Cannot operate on a closed database."

/-- Message for a statement sqlite3 cannot parse. -/
def syntaxErrorMsg : String := "syntax error"

/-- A value stored in (or compared by) the SQL engine. -/
inductive SqlValue where
  | null
  | text (s : String)
  | int (n : Nat)
  deriving DecidableEq, Repr

/-- Lift an optional Python string (None becomes SQL NULL). -/
def SqlValue.ofOptText : Option String → SqlValue
  | none => .null
  | some s => .text s

/-- Read a SqlValue back as an optional text (for storing into a text column). -/
def SqlValue.toOptText : SqlValue → Option String
  | .null => none
  | .text s => some s
  | .int n => some (toString n)

/-- The single-quote character, written by code point to keep sources plain. -/
def squote : Char := Char.ofNat 39

/-- The single-quote character as a string. -/
def squoteS : String := String.singleton squote

/-- Tokens of the modelled SQL fragment. -/
inductive Tok where
  | ident (s : String)
  | strLit (s : String)
  | eq
  | comma
  | star
  | param
  deriving DecidableEq, Repr

/-- Characters sqlite treats as part of a bare identifier. -/
def isIdentChar (c : Char) : Bool := c.isAlphanum || c = Char.ofNat 95

/-- Lexer mode: between tokens, inside an identifier, inside a string
literal, or just after a quote inside a string literal (which either closes
it or, doubled, escapes a quote). -/
inductive LexMode where
  | start
  | ident (acc : List Char)
  | str (acc : List Char)
  | strQ (acc : List Char)
  deriving Repr

/-- Prepend a token to an optional token list. -/
def consTok (t : Tok) (r : Option (List Tok)) : Option (List Tok) :=
  r.map (fun ts => t :: ts)

/-- The tokenizer: one character at a time, carrying the lexer mode.
Unterminated string literals (and characters outside the fragment) fail. -/
def tokGo : LexMode → List Char → Option (List Tok)
  | .start, [] => some []
  | .ident acc, [] => some [Tok.ident (String.mk acc.reverse)]
  | .str _, [] => none
  | .strQ acc, [] => some [Tok.strLit (String.mk acc.reverse)]
  | .start, c :: cs =>
    if c = ' ' then tokGo .start cs
    else if c = '=' then consTok Tok.eq (tokGo .start cs)
    else if c = ',' then consTok Tok.comma (tokGo .start cs)
    else if c = '*' then consTok Tok.star (tokGo .start cs)
    else if c = '?' then consTok Tok.param (tokGo .start cs)
    else if c = squote then tokGo (.str []) cs
    else if isIdentChar c then tokGo (.ident [c]) cs
    else none
  | .ident acc, c :: cs =>
    if isIdentChar c then tokGo (.ident (c :: acc)) cs
    else consTok (Tok.ident (String.mk acc.reverse))
      (if c = ' ' then tokGo .start cs
       else if c = '=' then consTok Tok.eq (tokGo .start cs)
       else if c = ',' then consTok Tok.comma (tokGo .start cs)
       else if c = '*' then consTok Tok.star (tokGo .start cs)
       else if c = '?' then consTok Tok.param (tokGo .start cs)
       else if c = squote then tokGo (.str []) cs
       else none)
  | .str acc, c :: cs =>
    if c = squote then tokGo (.strQ acc) cs
    else tokGo (.str (c :: acc)) cs
  | .strQ acc, c :: cs =>
    if c = squote then tokGo (.str (squote :: acc)) cs
    else consTok (Tok.strLit (String.mk acc.reverse))
      (if c = ' ' then tokGo .start cs
       else if c = '=' then consTok Tok.eq (tokGo .start cs)
       else if c = ',' then consTok Tok.comma (tokGo .start cs)
       else if c = '*' then consTok Tok.star (tokGo .start cs)
       else if c = '?' then consTok Tok.param (tokGo .start cs)
       else if c = squote then tokGo (.str []) cs
       else if isIdentChar c then tokGo (.ident [c]) cs
       else none)

/-- Tokenize a whole SQL text. -/
def tokenize (q : String) : Option (List Tok) := tokGo .start q.data

/-- Case-insensitive name equality (sqlite identifiers and keywords),
computed characterwise. -/
def lowEq (a b : String) : Bool :=
  a.data.map Char.toLower == b.data.map Char.toLower

/-- A term of a condition: a column reference, a literal, or an unbound
positional parameter. -/
inductive Term where
  | col (s : String)
  | lit (v : SqlValue)
  | param
  deriving DecidableEq, Repr

/-- A condition: equality atoms, possibly chained with OR.  This is the whole
condition grammar reachable from the query texts this module builds (the
interpolated inputs exercised here included). -/
inductive Cond where
  | atom (a b : Term)
  | disj (a b : Cond)
  deriving DecidableEq, Repr

/-- Read a single token as a term. -/
def parseTermTok : Tok → Option Term
  | .ident s => some (.col s)
  | .strLit s => some (.lit (.text s))
  | .param => some .param
  | _ => none

/-- Parse an OR-chain of equality atoms, returning leftover tokens. -/
def parseOr : List Tok → Option (Cond × List Tok)
  | a :: Tok.eq :: b :: rest =>
    match parseTermTok a, parseTermTok b with
    | some ta, some tb =>
      match rest with
      | Tok.ident w :: rest2 =>
        if lowEq w "OR" then
          match parseOr rest2 with
          | some (c2, r) => some (.disj (.atom ta tb) c2, r)
          | none => none
        else some (.atom ta tb, rest)
      | _ => some (.atom ta tb, rest)
    | _, _ => none
  | _ => none

/-- Parse `SELECT * FROM table` optionally followed by `WHERE cond`,
requiring the condition to consume all remaining tokens. -/
def parseSelect : List Tok → Option (String × Option Cond)
  | Tok.ident s :: Tok.star :: Tok.ident f :: Tok.ident tbl :: rest =>
    if lowEq s "SELECT" && lowEq f "FROM" then
      match rest with
      | [] => some (tbl, none)
      | Tok.ident w :: condToks =>
        if lowEq w "WHERE" then
          match parseOr condToks with
          | some (c, []) => some (tbl, some c)
          | _ => none
        else none
      | _ => none
    else none
  | _ => none

/-- Parse `DELETE FROM table WHERE cond`, requiring the condition to consume
all remaining tokens (a leftover comma, as in `delete_booking`, is a syntax
error exactly as in sqlite). -/
def parseDelete : List Tok → Option (String × Cond)
  | Tok.ident d :: Tok.ident f :: Tok.ident tbl :: Tok.ident w :: condToks =>
    if lowEq d "DELETE" && lowEq f "FROM" && lowEq w "WHERE" then
      match parseOr condToks with
      | some (c, []) => some (tbl, c)
      | _ => none
    else none
  | _ => none

/-- Parse the comma-separated `SET` assignments of an UPDATE. -/
def parseSets : List Tok → Option (List (String × Term) × List Tok)
  | Tok.ident col :: Tok.eq :: v :: rest =>
    match parseTermTok v with
    | some tv =>
      match rest with
      | Tok.comma :: rest2 =>
        match parseSets rest2 with
        | some (ss, r) => some ((col, tv) :: ss, r)
        | none => none
      | _ => some ([(col, tv)], rest)
    | none => none
  | _ => none

/-- A parsed UPDATE statement. -/
structure UpdateStmt where
  table : String
  sets : List (String × Term)
  cond : Cond
  deriving DecidableEq, Repr

/-- Parse `UPDATE table SET a = v, ... WHERE cond`. -/
def parseUpdate : List Tok → Option UpdateStmt
  | Tok.ident u :: Tok.ident tbl :: Tok.ident s :: rest =>
    if lowEq u "UPDATE" && lowEq s "SET" then
      match parseSets rest with
      | some (sets, Tok.ident w :: condToks) =>
        if lowEq w "WHERE" then
          match parseOr condToks with
          | some (c, []) => some ⟨tbl, sets, c⟩
          | _ => none
        else none
      | _ => none
    else none
  | _ => none

/-- Column names referenced by a term. -/
def Term.cols : Term → List String
  | .col s => [s]
  | _ => []

/-- Column names referenced by a condition. -/
def Cond.cols : Cond → List String
  | .atom a b => a.cols ++ b.cols
  | .disj a b => a.cols ++ b.cols

/-- Prepare-time column resolution: every referenced name must be a column
of the table (case-insensitively), else sqlite fails before binding. -/
def colsOk (schema : List String) (cs : List String) : Bool :=
  cs.all (fun s => schema.any (fun c => lowEq c s))

/-- The error message sqlite gives for the first unresolvable column. -/
def noSuchColMsg (schema : List String) (cs : List String) : String :=
  match cs.find? (fun s => !(schema.any (fun c => lowEq c s))) with
  | some s => "no such column: " ++ s
  | none => "no such column"

/-- Bind positional parameters inside a term, consuming values in order. -/
def Term.subst : Term → List SqlValue → Option (Term × List SqlValue)
  | .param, v :: vs => some (.lit v, vs)
  | .param, [] => none
  | t, vs => some (t, vs)

/-- Bind positional parameters inside a condition, left to right. -/
def Cond.subst : Cond → List SqlValue → Option (Cond × List SqlValue)
  | .atom a b, vs =>
    match a.subst vs with
    | some (a2, vs2) =>
      match b.subst vs2 with
      | some (b2, vs3) => some (.atom a2 b2, vs3)
      | none => none
    | none => none
  | .disj a b, vs =>
    match Cond.subst a vs with
    | some (a2, vs2) =>
      match Cond.subst b vs2 with
      | some (b2, vs3) => some (.disj a2 b2, vs3)
      | none => none
    | none => none

/-- Bind positional parameters inside the SET assignments, left to right. -/
def substSets : List (String × Term) → List SqlValue →
    Option (List (String × Term) × List SqlValue)
  | [], vs => some ([], vs)
  | (c, t) :: rest, vs =>
    match t.subst vs with
    | some (t2, vs2) =>
      match substSets rest vs2 with
      | some (rs2, vs3) => some ((c, t2) :: rs2, vs3)
      | none => none
    | none => none

/-- A row as the SQL engine sees it: named, possibly-NULL values. -/
def lookupCol (row : List (String × SqlValue)) (name : String) : SqlValue :=
  match row.find? (fun p => lowEq p.1 name) with
  | some p => p.2
  | none => .null

/-- Evaluate a term against a row (columns were resolved at prepare time and
parameters bound, so the fallback branches are unreachable on executed
statements). -/
def Term.eval (t : Term) (row : List (String × SqlValue)) : SqlValue :=
  match t with
  | .col s => lookupCol row s
  | .lit v => v
  | .param => .null

/-- Kleene three-valued OR (`none` is SQL NULL/unknown). -/
def kleeneOr : Option Bool → Option Bool → Option Bool
  | some true, _ => some true
  | _, some true => some true
  | some false, some false => some false
  | _, _ => none

/-- Evaluate a condition against a row in SQL three-valued logic. -/
def Cond.eval (c : Cond) (row : List (String × SqlValue)) : Option Bool :=
  match c with
  | .atom a b =>
    match a.eval row, b.eval row with
    | .null, _ => none
    | _, .null => none
    | x, y => some (x == y)
  | .disj a b => kleeneOr (a.eval row) (b.eval row)

/-- A row satisfies a WHERE condition iff it evaluates to true (NULL and
false both reject, as in SQL). -/
def rowSelected (row : List (String × SqlValue)) (c : Cond) : Bool :=
  Cond.eval c row == some true

/-! ## Data model (rows, store, handle, connection) -/

/-- A row of the Users table (`userID` is store-generated and irrelevant to
the claims; the columns written by `add_user` are kept). -/
structure UserRow where
  isAdmin : Nat
  username : String
  password : Option String
  firstName : Option String
  lastName : Option String
  email : Option String
  contactNumber : Option String
  deriving DecidableEq, Repr

/-- A row of the Rooms table. -/
structure RoomRow where
  roomID : Nat
  roomName : String
  picture : Option String
  resources : Option String
  deriving DecidableEq, Repr

/-- A row of the Bookings table (`roomName`, `date`, `time` form the
composite key and are required; the requester fields may be NULL). -/
structure BookingRow where
  roomName : String
  date : String
  time : String
  firstName : Option String
  lastName : Option String
  email : Option String
  contactNumber : Option String
  deriving DecidableEq, Repr

/-- The relational store contents. -/
structure Database where
  users : List UserRow
  rooms : List RoomRow
  bookings : List BookingRow
  deriving DecidableEq, Repr

/-- One live sqlite handle: committed and current store contents, the
foreign-keys pragma, whether the native connection was closed, and whether
the engine fails statement executions (`sqlite3.Error`). -/
structure DBHandle where
  committed : Database
  current : Database
  foreignKeys : Bool
  closed : Bool
  failing : Bool
  deriving DecidableEq, Repr

/-- The Python `Connection` object: its `con` attribute.  `none` models a
null/never-set attribute; note the attribute keeps referencing the handle
after `close()`. -/
structure Connection where
  con : Option DBHandle
  deriving DecidableEq, Repr

/-- Modelled from the spec: the Rooms table schema (its SQL dump is not part
of the sources given).  Spec section 3 lists the Room columns roomid,
roomname, picture, resources; the module's own queries spell the first two
roomID and roomName. -/
def roomsColumns : List String := ["roomID", "roomName", "picture", "resources"]

/-- Modelled from the spec: the Bookings table schema (its SQL dump is not
part of the sources given).  Spec section 3 lists the composite key
roomname/date/time and the denormalized requester fields; the module's row
accesses spell them roomName, date, time, firstName, lastName, email,
contactNumber. -/
def bookingsColumns : List String :=
  ["roomName", "date", "time", "firstName", "lastName", "email", "contactNumber"]

/-- A booking row as the SQL engine sees it. -/
def BookingRow.toSqlRow (b : BookingRow) : List (String × SqlValue) :=
  [("roomName", .text b.roomName), ("date", .text b.date), ("time", .text b.time),
   ("firstName", SqlValue.ofOptText b.firstName),
   ("lastName", SqlValue.ofOptText b.lastName),
   ("email", SqlValue.ofOptText b.email),
   ("contactNumber", SqlValue.ofOptText b.contactNumber)]

/-- A room row as the SQL engine sees it. -/
def RoomRow.toSqlRow (r : RoomRow) : List (String × SqlValue) :=
  [("roomID", .int r.roomID), ("roomName", .text r.roomName),
   ("picture", SqlValue.ofOptText r.picture),
   ("resources", SqlValue.ofOptText r.resources)]

/-- Execute a SELECT text against the Bookings table: tokenize, parse,
resolve the table and columns, then filter. -/
def execSelectBookings (bs : List BookingRow) (q : String) :
    Except PyError (List BookingRow) :=
  match tokenize q with
  | none => .error (.sqlOperational syntaxErrorMsg)
  | some toks =>
    match parseSelect toks with
    | none => .error (.sqlOperational syntaxErrorMsg)
    | some (tbl, cond) =>
      if lowEq tbl "Bookings" then
        match cond with
        | none => .ok bs
        | some c =>
          if colsOk bookingsColumns c.cols then
            .ok (bs.filter (fun b => rowSelected b.toSqlRow c))
          else .error (.sqlOperational (noSuchColMsg bookingsColumns c.cols))
      else .error (.sqlOperational ("no such table: " ++ tbl))

/-- Execute a DELETE text with bound parameters against the Bookings table.
Returns the kept rows and the number of deleted rows.  Parse and column
resolution happen before binding, as in sqlite. -/
def execDeleteBookings (bs : List BookingRow) (q : String)
    (params : List SqlValue) : Except PyError (List BookingRow × Nat) :=
  match tokenize q with
  | none => .error (.sqlOperational syntaxErrorMsg)
  | some toks =>
    match parseDelete toks with
    | none => .error (.sqlOperational syntaxErrorMsg)
    | some (tbl, c) =>
      if lowEq tbl "Bookings" then
        if colsOk bookingsColumns c.cols then
          match c.subst params with
          | some (c2, []) =>
            let kept := bs.filter (fun b => !(rowSelected b.toSqlRow c2))
            .ok (kept, bs.length - kept.length)
          | _ => .error (.sqlProgramming "parameter count mismatch")
        else .error (.sqlOperational (noSuchColMsg bookingsColumns c.cols))
      else .error (.sqlOperational ("no such table: " ++ tbl))

/-- Apply one SET assignment to a room row (columns were resolved at prepare
time). -/
def applyRoomSet (r : RoomRow) (col : String) (v : SqlValue) : RoomRow :=
  if lowEq col "picture" then { r with picture := v.toOptText }
  else if lowEq col "resources" then { r with resources := v.toOptText }
  else if lowEq col "roomName" then { r with roomName := (v.toOptText).getD "" }
  else if lowEq col "roomID" then
    { r with roomID := match v with | .int n => n | _ => r.roomID }
  else r

/-- Apply the SET assignments of an UPDATE to a room row; values are
evaluated against the original row. -/
def applyRoomSets (r : RoomRow) (sets : List (String × Term)) : RoomRow :=
  sets.foldl (fun acc ct => applyRoomSet acc ct.1 (ct.2.eval r.toSqlRow)) r

/-- Execute an UPDATE text with bound parameters against the Rooms table.
Returns the updated rows and the number of matched rows.  Parse and column
resolution happen before binding, as in sqlite — so an unknown column such
as `room_id` fails regardless of the store contents. -/
def execUpdateRooms (rs : List RoomRow) (q : String) (params : List SqlValue) :
    Except PyError (List RoomRow × Nat) :=
  match tokenize q with
  | none => .error (.sqlOperational syntaxErrorMsg)
  | some toks =>
    match parseUpdate toks with
    | none => .error (.sqlOperational syntaxErrorMsg)
    | some st =>
      if lowEq st.table "Rooms" then
        let allCols := st.sets.map Prod.fst ++ st.cond.cols
        if colsOk roomsColumns allCols then
          match substSets st.sets params with
          | some (sets2, ps2) =>
            match st.cond.subst ps2 with
            | some (c2, []) =>
              let sel := fun r : RoomRow => rowSelected r.toSqlRow c2
              .ok (rs.map (fun r => if sel r then applyRoomSets r sets2 else r),
                   (rs.filter sel).length)
            | _ => .error (.sqlProgramming "parameter count mismatch")
          | none => .error (.sqlProgramming "parameter count mismatch")
        else .error (.sqlOperational (noSuchColMsg roomsColumns allCols))
      else .error (.sqlOperational ("no such table: " ++ st.table))

/-! ## The Connection API (translated from `reservation/database.py`)

Every method returns the final object state together with the Python
outcome (`Except PyError`), because a method that raises can still have
mutated the session first (`check_foreign_keys_status` closes it). -/

/-- `close()`: `if self.con: self.con.commit(); self.con.close()`.
The guard only checks the attribute for null-ness; the attribute is never
cleared, so on an already-closed handle the `commit()` raises a
`ProgrammingError`. -/
def Connection.close (c : Connection) : Connection × Except PyError Unit :=
  match c.con with
  | none => (c, .ok ())
  | some h =>
    if h.closed then (c, .error (.sqlProgramming closedMsg))
    else (⟨some { h with committed := h.current, closed := true }⟩, .ok ())

/-- `check_foreign_keys_status()`: reads `PRAGMA foreign_keys`; any
`sqlite3.Error` is caught, the session is closed (committing), and the
error re-raised.  On a closed handle the `execute` raises a
`ProgrammingError` (a `sqlite3.Error`, so it is caught), and the `close()`
inside the handler raises a `ProgrammingError` again from its `commit`. -/
def Connection.check_foreign_keys_status (c : Connection) :
    Connection × Except PyError Bool :=
  match c.con with
  | none => (c, .error .attributeError)
  | some h =>
    if h.closed then (c, .error (.sqlProgramming closedMsg))
    else if h.failing then
      (⟨some { h with committed := h.current, closed := true }⟩,
       .error .storeFailure)
    else
      let data : Nat := if h.foreignKeys then 1 else 0
      let is_activated := data == 1
      (c, .ok is_activated)

/-- `set_foreign_keys_support()`: executes `PRAGMA foreign_keys = ON`
(a constant, well-formed statement, modelled directly); every
`sqlite3.Error` is swallowed into a `False` return. -/
def Connection.set_foreign_keys_support (c : Connection) :
    Connection × Except PyError Bool :=
  match c.con with
  | none => (c, .error .attributeError)
  | some h =>
    if h.closed then (c, .ok false)
    else if h.failing then (c, .ok false)
    else (⟨some { h with foreignKeys := true }⟩, .ok true)

/-- `unset_foreign_keys_support()`: as above with `PRAGMA foreign_keys = OFF`. -/
def Connection.unset_foreign_keys_support (c : Connection) :
    Connection × Except PyError Bool :=
  match c.con with
  | none => (c, .error .attributeError)
  | some h =>
    if h.closed then (c, .ok false)
    else if h.failing then (c, .ok false)
    else (⟨some { h with foreignKeys := false }⟩, .ok true)

/-- The dictionary argument of `add_user` (`user_dict.get(key, default)`:
a missing key is `none`). -/
structure UserDict where
  isadmin : Option Nat
  password : Option String
  firstname : Option String
  lastname : Option String
  email : Option String
  contactnumber : Option String
  deriving DecidableEq, Repr

/-- The dictionary argument of `modify_room`. -/
structure RoomDict where
  picture : Option String
  resources : Option String
  deriving DecidableEq, Repr

/-- `_create_booking_object(row)`: the literal 7-key dictionary built from a
Bookings row.  `date` and `time` pass through `str(...)`, the identity on
the TEXT values stored there. -/
def _create_booking_object (row : BookingRow) : List (String × Option String) :=
  [("roomname", some row.roomName),
   ("date", some row.date),
   ("time", some row.time),
   ("firstname", row.firstName),
   ("lastname", row.lastName),
   ("email", row.email),
   ("contactnumber", row.contactNumber)]

/-- `add_user(username, user_dict)`: queries are the constant, fully
parameterized `SELECT userID from Users WHERE username = ?` and
`INSERT INTO Users(...) VALUES(?,...)`, modelled directly as lookup and
append.  `set_foreign_keys_support()` is called first (errors swallowed);
on a closed or failing engine the subsequent `execute` raises. -/
def Connection.add_user (c : Connection) (username : String)
    (user_dict : UserDict) : Connection × Except PyError (Option String) :=
  let _isadmin := user_dict.isadmin.getD 0
  let _password := user_dict.password
  let _firstname := user_dict.firstname
  let _lastname := user_dict.lastname
  let _email := user_dict.email
  let _contactnumber := user_dict.contactnumber
  match c.con with
  | none => (c, .error .attributeError)
  | some h =>
    if h.closed then (c, .error (.sqlProgramming closedMsg))
    else if h.failing then (c, .error .storeFailure)
    else
      let h1 := { h with foreignKeys := true }
      match h1.current.users.find? (fun u => u.username == username) with
      | some _ => (⟨some h1⟩, .ok none)
      | none =>
        let newRow : UserRow :=
          ⟨_isadmin, username, _password, _firstname, _lastname, _email,
           _contactnumber⟩
        let db2 := { h1.current with users := h1.current.users ++ [newRow] }
        (⟨some { h1 with current := db2, committed := db2 }⟩,
         .ok (some username))

/-- `delete_user(username)`: the constant, fully parameterized
`DELETE FROM Users WHERE username = ?`, modelled directly as a filter;
returns `cur.rowcount >= 1` and commits. -/
def Connection.delete_user (c : Connection) (username : String) :
    Connection × Except PyError Bool :=
  match c.con with
  | none => (c, .error .attributeError)
  | some h =>
    if h.closed then (c, .error (.sqlProgramming closedMsg))
    else if h.failing then (c, .error .storeFailure)
    else
      let h1 := { h with foreignKeys := true }
      let kept := h1.current.users.filter (fun u => !(u.username == username))
      let rowcount := h1.current.users.length - kept.length
      let db2 := { h1.current with users := kept }
      let h2 := { h1 with current := db2, committed := db2 }
      if rowcount < 1 then (⟨some h2⟩, .ok false) else (⟨some h2⟩, .ok true)

/-- The literal UPDATE text of `modify_room` (its WHERE clause spells the
key column `room_id`, unlike the `roomID` used by its own SELECT). -/
def modify_room_query2 : String :=
  "UPDATE Rooms SET picture = ?,resources = ? WHERE room_id = ?"

/-- `modify_room(roomName, room_dict)`: looks the room up by name (constant
parameterized SELECT, modelled directly), then executes the UPDATE text with
the bound picture/resources/room_id values; note it does not touch the
foreign-keys pragma. -/
def Connection.modify_room (c : Connection) (roomName : String)
    (room_dict : RoomDict) : Connection × Except PyError (Option String) :=
  let _picture := room_dict.picture
  let _resources := room_dict.resources
  match c.con with
  | none => (c, .error .attributeError)
  | some h =>
    if h.closed then (c, .error (.sqlProgramming closedMsg))
    else if h.failing then (c, .error .storeFailure)
    else
      match h.current.rooms.find? (fun r => r.roomName == roomName) with
      | none => (c, .ok none)
      | some row =>
        let room_id := row.roomID
        match execUpdateRooms h.current.rooms modify_room_query2
            [SqlValue.ofOptText _picture, SqlValue.ofOptText _resources,
             SqlValue.int room_id] with
        | .error e => (c, .error e)
        | .ok (rooms2, rowcount) =>
          let db2 := { h.current with rooms := rooms2 }
          let h2 := { h with current := db2, committed := db2 }
          if rowcount < 1 then (⟨some h2⟩, .ok none)
          else (⟨some h2⟩, .ok (some roomName))

/-- The query text `get_bookings` builds: the filter is raw string
interpolation, `" WHERE roomName = '%s'" % roomname`. -/
def get_bookings_query (roomname : Option String) : String :=
  match roomname with
  | none => "SELECT * FROM Bookings"
  | some r =>
    "SELECT * FROM Bookings" ++ " WHERE roomName = " ++ squoteS ++ r ++ squoteS

/-- `get_bookings(roomname=None)`: builds the query text (interpolating the
room name when given), turns the pragma on, executes, and maps the rows.
`fetchall` always yields a list, so the source's `if rows is None` branch is
dead; the none-sentinel is kept in the result type to state that. -/
def Connection.get_bookings (c : Connection) (roomname : Option String) :
    Connection × Except PyError (Option (List (List (String × Option String)))) :=
  match c.con with
  | none => (c, .error .attributeError)
  | some h =>
    if h.closed then (c, .error (.sqlProgramming closedMsg))
    else if h.failing then (c, .error .storeFailure)
    else
      let h1 := { h with foreignKeys := true }
      match execSelectBookings h1.current.bookings (get_bookings_query roomname) with
      | .error e => (⟨some h1⟩, .error e)
      | .ok rows => (⟨some h1⟩, .ok (some (rows.map _create_booking_object)))

/-- The literal DELETE text of `delete_booking` (its WHERE clause separates
the three predicates with commas, which is not SQL). -/
def delete_booking_query : String :=
  "DELETE FROM Bookings WHERE roomname=?, date=?, time=?"

/-- `delete_booking(roomname, date, time, booking_dict)`: executes the
malformed DELETE text with the three bound key values; `booking_dict` is
accepted and ignored, as in the source. -/
def Connection.delete_booking (c : Connection) (roomname date time : String)
    (booking_dict : List (String × Option String)) :
    Connection × Except PyError Bool :=
  let _ := booking_dict
  match c.con with
  | none => (c, .error .attributeError)
  | some h =>
    if h.closed then (c, .error (.sqlProgramming closedMsg))
    else if h.failing then (c, .error .storeFailure)
    else
      match execDeleteBookings h.current.bookings delete_booking_query
          [.text roomname, .text date, .text time] with
      | .error e => (c, .error e)
      | .ok (kept, rowcount) =>
        let db2 := { h.current with bookings := kept }
        let h2 := { h with current := db2, committed := db2 }
        if rowcount < 1 then (⟨some h2⟩, .ok false) else (⟨some h2⟩, .ok true)

/-! ## Concrete fixtures (mirroring the seeded test data) -/

/-- The seeded Stage booking. -/
def bkStage : BookingRow :=
  ⟨"Stage", "20170301", "1000", some "Onur", some "Ozuduru",
   some "onur.ozuduru@ee.oulu.fi", some "0411311911"⟩

/-- The seeded Chill booking. -/
def bkChill : BookingRow :=
  ⟨"Chill", "2017035", "1200", some "Paramartha", some "Narendradhipa",
   some "paramartha.n@ee.oulu.fi", some "0417511944"⟩

/-- The seeded Chill room. -/
def roomChill : RoomRow := ⟨1, "Chill", none, none⟩

/-- The seeded user para. -/
def userPara : UserRow := ⟨0, "para", none, none, none, none, none⟩

/-- A store seeded as in the test scenario. -/
def seedDb : Database := ⟨[userPara], [roomChill], [bkStage, bkChill]⟩

/-- A fresh, healthy handle over the seeded store. -/
def seedHandle : DBHandle := ⟨seedDb, seedDb, false, false, false⟩

/-- A fresh session over the seeded store. -/
def seedConn : Connection := ⟨some seedHandle⟩

/-- A handle whose storage engine fails statement executions. -/
def failHandle : DBHandle := ⟨seedDb, seedDb, false, false, true⟩

/-- A handle whose native connection was already closed. -/
def closedHandle : DBHandle := ⟨seedDb, seedDb, false, true, false⟩

/-- An empty dictionary argument for `add_user`. -/
def emptyUserDict : UserDict := ⟨none, none, none, none, none, none⟩

/-! ## Helper lemmas -/

/-- The deleted row count of a parameterized DELETE equals the number of
matching rows. -/
theorem length_sub_filter_not {α : Type} (p : α → Bool) (l : List α) :
    l.length - (l.filter (fun a => !(p a))).length = l.countP p := by
  induction l with
  | nil => rfl
  | cons a t ih =>
    have hle := List.length_filter_le (fun a => !(p a)) t
    cases h : p a with
    | true =>
      rw [List.filter_cons_of_neg (by simp [h]), List.length_cons,
        List.countP_cons_of_pos _ _ (by simp [h])]
      omega
    | false =>
      rw [List.filter_cons_of_pos (by simp [h]), List.length_cons,
        List.length_cons, List.countP_cons_of_neg _ _ (by simp [h])]
      omega

/-- Rows matching the predicate are all gone after the filtered delete. -/
theorem countP_filter_not {α : Type} (p : α → Bool) (l : List α) :
    (l.filter (fun a => !(p a))).countP p = 0 := by
  rw [List.countP_eq_zero]
  intro a ha
  have := (List.mem_filter.mp ha).2
  simp at this
  simp [this]

/-- The malformed DELETE text of `delete_booking` fails to parse regardless
of the table contents and bound values. -/
theorem execDeleteBookings_syntax (bs : List BookingRow) (ps : List SqlValue) :
    execDeleteBookings bs delete_booking_query ps =
      .error (.sqlOperational syntaxErrorMsg) := rfl

/-- The UPDATE text of `modify_room` fails column resolution (`room_id` is
not a Rooms column) regardless of the table contents and bound values. -/
theorem execUpdateRooms_room_id (rs : List RoomRow) (ps : List SqlValue) :
    execUpdateRooms rs modify_room_query2 ps =
      .error (.sqlOperational "no such column: room_id") := rfl

/-- String append acts on the underlying character lists. -/
theorem data_append (a b : String) : (a ++ b).data = a.data ++ b.data := rfl

/-- A string is the pack of its character list. -/
theorem mk_data (s : String) : String.mk s.data = s := rfl

/-- Inside a string literal, characters other than the quote are consumed
verbatim until the closing quote ends the statement text. -/
theorem tokGo_str_no_quote (l : List Char) (hnq : squote ∉ l) : ∀ acc,
    tokGo (.str acc) (l ++ [squote]) =
      some [Tok.strLit (String.mk (acc.reverse ++ l))] := by
  induction l with
  | nil => intro acc; simp [tokGo]
  | cons c t ih =>
    intro acc
    have hc : ¬(c = squote) := fun h => hnq (h ▸ List.mem_cons_self c t)
    rw [List.cons_append]
    rw [show tokGo (.str acc) (c :: (t ++ [squote])) =
        tokGo (.str (c :: acc)) (t ++ [squote]) from by simp [tokGo, hc]]
    rw [ih (fun hm => hnq (List.mem_cons_of_mem c hm)) (c :: acc)]
    simp

/-- The character data of the interpolated `get_bookings` query text. -/
theorem get_bookings_query_data (R : String) :
    (get_bookings_query (some R)).data =
      "SELECT * FROM Bookings WHERE roomName = ".data ++
        (squote :: (R.data ++ [squote])) := rfl

/-- Tokenizing the constant prefix of the filtered query steps the lexer to
the start of the interpolated part. -/
theorem tokGo_query_prefix (cs : List Char) :
    tokGo .start ("SELECT * FROM Bookings WHERE roomName = ".data ++ cs) =
      consTok (Tok.ident "SELECT") (consTok Tok.star (consTok (Tok.ident "FROM")
        (consTok (Tok.ident "Bookings") (consTok (Tok.ident "WHERE")
          (consTok (Tok.ident "roomName") (consTok Tok.eq (tokGo .start cs))))))) :=
  rfl

/-- An opening quote switches the lexer into string-literal mode. -/
theorem tokGo_start_quote (cs : List Char) :
    tokGo .start (squote :: cs) = tokGo (.str []) cs := rfl

/-- Tokenization of the interpolated query for a quote-free room name:
the whole name lands in a single string-literal token. -/
theorem tokenize_query (R : String) (hnq : squote ∉ R.data) :
    tokenize (get_bookings_query (some R)) =
      some [Tok.ident "SELECT", Tok.star, Tok.ident "FROM", Tok.ident "Bookings",
            Tok.ident "WHERE", Tok.ident "roomName", Tok.eq, Tok.strLit R] := by
  rw [tokenize, get_bookings_query_data, tokGo_query_prefix, tokGo_start_quote,
    tokGo_str_no_quote R.data hnq []]
  simp [consTok, mk_data]

/-- Parsing the tokenized filtered query yields the single equality atom. -/
theorem parseSelect_query (R : String) :
    parseSelect [Tok.ident "SELECT", Tok.star, Tok.ident "FROM",
      Tok.ident "Bookings", Tok.ident "WHERE", Tok.ident "roomName", Tok.eq,
      Tok.strLit R] =
      some ("Bookings", some (.atom (.col "roomName") (.lit (.text R)))) := rfl

/-- Equality of text values is string equality. -/
theorem text_beq (a b : String) :
    (SqlValue.text a == SqlValue.text b) = (a == b) := by
  rw [Bool.eq_iff_iff]
  simp [beq_iff_eq]

/-- Evaluating the interpolated equality atom compares the row's room name
with the given string. -/
theorem eval_atom_roomName (b : BookingRow) (R : String) :
    Cond.eval (.atom (.col "roomName") (.lit (.text R))) b.toSqlRow =
      some (b.roomName == R) := by
  have hstep : Cond.eval (.atom (.col "roomName") (.lit (.text R))) b.toSqlRow =
      some (SqlValue.text b.roomName == SqlValue.text R) := rfl
  rw [hstep, text_beq]

/-- Row selection under the interpolated equality atom is equality of the
room name. -/
theorem rowSelected_roomName (b : BookingRow) (R : String) :
    rowSelected b.toSqlRow (.atom (.col "roomName") (.lit (.text R))) =
      (b.roomName == R) := by
  rw [rowSelected, eval_atom_roomName]
  cases hb : b.roomName == R <;> rfl

/-- Executing the filtered query over any Bookings table, for a quote-free
room name, selects by the interpolated atom. -/
theorem execSelect_query (bs : List BookingRow) (R : String)
    (hnq : squote ∉ R.data) :
    execSelectBookings bs (get_bookings_query (some R)) =
      .ok (bs.filter (fun b =>
        rowSelected b.toSqlRow (.atom (.col "roomName") (.lit (.text R))))) := by
  unfold execSelectBookings
  rw [tokenize_query R hnq]
  rfl

/-- Executing the filtered query is exact equality filtering for quote-free
room names. -/
theorem execSelect_query_filter (bs : List BookingRow) (R : String)
    (hnq : squote ∉ R.data) :
    execSelectBookings bs (get_bookings_query (some R)) =
      .ok (bs.filter (fun b => b.roomName == R)) := by
  rw [execSelect_query bs R hnq,
    List.filter_congr (fun b _ => rowSelected_roomName b R)]

/-- Executing the unfiltered query returns the whole Bookings table. -/
theorem execSelect_all (bs : List BookingRow) :
    execSelectBookings bs (get_bookings_query none) = .ok bs := rfl

/-! ## Claims -/

/-- A room name that smuggles a tautology through the raw interpolation. -/
def injectedRoomName : String :=
  "x" ++ squoteS ++ " OR " ++ squoteS ++ "a" ++ squoteS ++ "=" ++ squoteS ++ "a"

/-- Claim C1 as stated is false for room names containing a quote: the raw
interpolation lets the input rewrite the WHERE clause.  With the seeded
store, filtering by a name that matches no booking returns every booking
(the injected OR is a tautology) instead of the empty list the claim
requires. -/
theorem C1_counterexample :
    (Connection.get_bookings seedConn (some injectedRoomName)).2 =
      .ok (some [_create_booking_object bkStage, _create_booking_object bkChill]) ∧
    bkStage.roomName ≠ injectedRoomName ∧
    bkChill.roomName ≠ injectedRoomName :=
  ⟨rfl, by decide, by decide⟩

/-- Claim C1 amended: with no argument get_bookings returns every booking
mapped to a record, and with a room name containing no single-quote
character it returns exactly the bookings whose room name equals it — an
empty list (never the none-sentinel) when nothing matches.  For names
containing a quote the raw interpolation alters the query text instead of
behaving as a parameterized equality predicate. -/
theorem C1_corrected (h : DBHandle) (R : String)
    (hnq : squote ∉ R.data) (hcl : h.closed = false) (hfl : h.failing = false) :
    (Connection.get_bookings ⟨some h⟩ none).2 =
      .ok (some (h.current.bookings.map _create_booking_object)) ∧
    (Connection.get_bookings ⟨some h⟩ (some R)).2 =
      .ok (some ((h.current.bookings.filter (fun b => b.roomName == R)).map
        _create_booking_object)) := by
  constructor
  · simp [Connection.get_bookings, hcl, hfl, execSelect_all]
  · simp [Connection.get_bookings, hcl, hfl,
      execSelect_query_filter h.current.bookings R hnq]

/-- Witness for C1: the seeded store filtered by the quote-free name Chill. -/
theorem C1_witness :
    squote ∉ ("Chill" : String).data ∧
    ((Connection.get_bookings ⟨some seedHandle⟩ none).2 =
        .ok (some (seedHandle.current.bookings.map _create_booking_object)) ∧
      (Connection.get_bookings ⟨some seedHandle⟩ (some "Chill")).2 =
        .ok (some ((seedHandle.current.bookings.filter
          (fun b => b.roomName == "Chill")).map _create_booking_object))) :=
  ⟨by decide, C1_corrected seedHandle "Chill" (by decide) rfl rfl⟩

/-- Claim C2: modify_room on a present name is claimed to update exactly that
room and return the name.  The code instead raises: its UPDATE references
column `room_id`, which does not exist in the Rooms schema (the module's own
SELECT uses `roomID`), so sqlite fails at prepare time on every existing
room.  The absent-name branch behaves as claimed (returns the none-sentinel,
changes nothing). -/
theorem C2_code_bug (h : DBHandle) (name : String) (d : RoomDict)
    (hcl : h.closed = false) (hfl : h.failing = false) :
    ((h.current.rooms.find? (fun r => r.roomName == name)).isSome →
      Connection.modify_room ⟨some h⟩ name d =
        (⟨some h⟩, .error (.sqlOperational "no such column: room_id"))) ∧
    (h.current.rooms.find? (fun r => r.roomName == name) = none →
      Connection.modify_room ⟨some h⟩ name d = (⟨some h⟩, .ok none)) := by
  cases hf : h.current.rooms.find? (fun r => r.roomName == name) with
  | none => simp [Connection.modify_room, hcl, hfl, hf]
  | some row => simp [Connection.modify_room, hcl, hfl, hf, execUpdateRooms_room_id]

/-- Witness for C2: the seeded Chill room exists, and modifying it raises. -/
theorem C2_witness :
    (seedHandle.current.rooms.find? (fun r => r.roomName == "Chill")).isSome ∧
    Connection.modify_room ⟨some seedHandle⟩ "Chill" ⟨some "p", some "r"⟩ =
      (⟨some seedHandle⟩, .error (.sqlOperational "no such column: room_id")) :=
  ⟨by decide,
   (C2_code_bug seedHandle "Chill" ⟨some "p", some "r"⟩ rfl rfl).1 (by decide)⟩

/-- Claim C3: delete_booking is claimed to delete the matching row and
return a boolean without raising.  The code's DELETE text separates the
WHERE predicates with commas, which is not SQL, so every call raises an
OperationalError at execution and the store is never touched. -/
theorem C3_code_bug (h : DBHandle) (roomname date time : String)
    (d : List (String × Option String))
    (hcl : h.closed = false) (hfl : h.failing = false) :
    Connection.delete_booking ⟨some h⟩ roomname date time d =
      (⟨some h⟩, .error (.sqlOperational syntaxErrorMsg)) := by
  simp [Connection.delete_booking, hcl, hfl, execDeleteBookings_syntax]

/-- Witness for C3: deleting the seeded Stage booking raises. -/
theorem C3_witness :
    Connection.delete_booking ⟨some seedHandle⟩ "Stage" "20170301" "1000" [] =
      (⟨some seedHandle⟩, .error (.sqlOperational syntaxErrorMsg)) :=
  C3_code_bug seedHandle "Stage" "20170301" "1000" [] rfl rfl

/-- Claim C4: adding a username not already present returns the username and
afterwards exactly one row with that username exists, built from the fields
with missing optional fields stored as none and a missing admin flag as 0. -/
theorem C4_confirmed (h : DBHandle) (u : String) (d : UserDict)
    (hcl : h.closed = false) (hfl : h.failing = false)
    (habsent : h.current.users.countP (fun x => x.username == u) = 0) :
    (Connection.add_user ⟨some h⟩ u d).2 = .ok (some u) ∧
    ∃ h2, (Connection.add_user ⟨some h⟩ u d).1.con = some h2 ∧
      h2.current.users = h.current.users ++
        [⟨d.isadmin.getD 0, u, d.password, d.firstname, d.lastname, d.email,
          d.contactnumber⟩] ∧
      h2.current.users.countP (fun x => x.username == u) = 1 ∧
      h2.committed = h2.current := by
  have hfind : h.current.users.find? (fun x => x.username == u) = none := by
    rw [List.find?_eq_none]
    intro x hx
    exact List.countP_eq_zero.mp habsent x hx
  refine ⟨?_, ?_⟩
  · simp [Connection.add_user, hcl, hfl, hfind]
  · refine ⟨⟨{ h.current with users := h.current.users ++
        [⟨d.isadmin.getD 0, u, d.password, d.firstname, d.lastname, d.email,
          d.contactnumber⟩] },
      { h.current with users := h.current.users ++
        [⟨d.isadmin.getD 0, u, d.password, d.firstname, d.lastname, d.email,
          d.contactnumber⟩] },
      true, h.closed, h.failing⟩, ?_, rfl, ?_, rfl⟩
    · simp [Connection.add_user, hcl, hfl, hfind]
    · simp [List.countP_append, habsent]

/-- Witness for C4: adding a fresh username to the seeded store. -/
theorem C4_witness :
    seedHandle.current.users.countP (fun x => x.username == "newuser") = 0 ∧
    ((Connection.add_user ⟨some seedHandle⟩ "newuser" emptyUserDict).2 =
        .ok (some "newuser") ∧
      ∃ h2, (Connection.add_user ⟨some seedHandle⟩ "newuser" emptyUserDict).1.con
          = some h2 ∧
        h2.current.users = seedHandle.current.users ++
          [⟨(emptyUserDict.isadmin).getD 0, "newuser", emptyUserDict.password,
            emptyUserDict.firstname, emptyUserDict.lastname, emptyUserDict.email,
            emptyUserDict.contactnumber⟩] ∧
        h2.current.users.countP (fun x => x.username == "newuser") = 1 ∧
        h2.committed = h2.current) :=
  ⟨by decide, C4_confirmed seedHandle "newuser" emptyUserDict rfl rfl (by decide)⟩

/-- Claim C5: adding a username already present returns the none-sentinel
without raising and leaves the store untouched (only the session's
foreign-keys pragma was turned on). -/
theorem C5_confirmed (h : DBHandle) (u : String) (d : UserDict)
    (hcl : h.closed = false) (hfl : h.failing = false)
    (hpresent : 1 ≤ h.current.users.countP (fun x => x.username == u)) :
    (Connection.add_user ⟨some h⟩ u d).2 = .ok none ∧
    (Connection.add_user ⟨some h⟩ u d).1 =
      ⟨some { h with foreignKeys := true }⟩ := by
  obtain ⟨x, hx⟩ : ∃ x, h.current.users.find? (fun y => y.username == u) = some x := by
    cases hf : h.current.users.find? (fun y => y.username == u) with
    | none =>
      exfalso
      have : h.current.users.countP (fun x => x.username == u) = 0 :=
        List.countP_eq_zero.mpr (List.find?_eq_none.mp hf)
      omega
    | some x => exact ⟨x, rfl⟩
  constructor <;> simp [Connection.add_user, hcl, hfl, hx]

/-- Witness for C5: re-adding the seeded user para. -/
theorem C5_witness :
    1 ≤ seedHandle.current.users.countP (fun x => x.username == "para") ∧
    ((Connection.add_user ⟨some seedHandle⟩ "para" emptyUserDict).2 = .ok none ∧
      (Connection.add_user ⟨some seedHandle⟩ "para" emptyUserDict).1 =
        ⟨some { seedHandle with foreignKeys := true }⟩) :=
  ⟨by decide, C5_confirmed seedHandle "para" emptyUserDict rfl rfl (by decide)⟩

/-- Claim C6: delete_user returns true iff at least one row with the
username existed immediately before the call, and afterwards no row with
that username remains in the (committed) store. -/
theorem C6_confirmed (h : DBHandle) (u : String)
    (hcl : h.closed = false) (hfl : h.failing = false) :
    (Connection.delete_user ⟨some h⟩ u).2 =
      .ok (decide (1 ≤ h.current.users.countP (fun x => x.username == u))) ∧
    ∃ h2, (Connection.delete_user ⟨some h⟩ u).1.con = some h2 ∧
      h2.current.users.countP (fun x => x.username == u) = 0 ∧
      h2.committed = h2.current := by
  have hcount := length_sub_filter_not (fun x : UserRow => x.username == u)
    h.current.users
  refine ⟨?_,
    ⟨⟨{ h.current with users :=
          h.current.users.filter (fun x => !(x.username == u)) },
      { h.current with users :=
          h.current.users.filter (fun x => !(x.username == u)) },
      true, h.closed, h.failing⟩, ?_, ?_, rfl⟩⟩
  · by_cases hlt :
      h.current.users.length -
        (h.current.users.filter (fun x => !(x.username == u))).length < 1
    · have : h.current.users.countP (fun x => x.username == u) = 0 := by omega
      simp [Connection.delete_user, hcl, hfl, hlt, this]
    · have : 1 ≤ h.current.users.countP (fun x => x.username == u) := by omega
      simp [Connection.delete_user, hcl, hfl, hlt, this]
  · by_cases hlt :
      h.current.users.length -
        (h.current.users.filter (fun x => !(x.username == u))).length < 1 <;>
      simp [Connection.delete_user, hcl, hfl, hlt]
  · exact countP_filter_not (fun x : UserRow => x.username == u) h.current.users

/-- Witness for C6: deleting the seeded user para from the seeded store. -/
theorem C6_witness :
    seedHandle.closed = false ∧
    ((Connection.delete_user ⟨some seedHandle⟩ "para").2 =
      .ok (decide (1 ≤ seedHandle.current.users.countP
        (fun x => x.username == "para"))) ∧
    ∃ h2, (Connection.delete_user ⟨some seedHandle⟩ "para").1.con = some h2 ∧
      h2.current.users.countP (fun x => x.username == "para") = 0 ∧
      h2.committed = h2.current) :=
  ⟨rfl, C6_confirmed seedHandle "para" rfl rfl⟩

/-- Claim C7: every record a successful get_bookings returns is a flat
mapping with exactly the seven booking keys in order, and every value is a
string or absent (none). -/
theorem C7_confirmed (c : Connection) (rn : Option String)
    (l : List (List (String × Option String)))
    (hok : (Connection.get_bookings c rn).2 = .ok (some l)) :
    ∀ r ∈ l, r.map Prod.fst =
        ["roomname", "date", "time", "firstname", "lastname", "email",
         "contactnumber"] ∧
      ∀ kv ∈ r, kv.2 = none ∨ ∃ s, kv.2 = some s := by
  obtain ⟨con⟩ := c
  cases con with
  | none => simp [Connection.get_bookings] at hok
  | some h =>
    by_cases hcl : h.closed = true
    · simp [Connection.get_bookings, hcl] at hok
    · by_cases hfl : h.failing = true
      · simp [Connection.get_bookings, hcl, hfl] at hok
      · rw [Connection.get_bookings] at hok
        simp only [hcl, hfl] at hok
        simp only [Bool.not_eq_true] at hcl hfl
        rw [if_neg (by simp [hcl]), if_neg (by simp [hfl])] at hok
        cases hex : execSelectBookings
            ({ h with foreignKeys := true } : DBHandle).current.bookings
            (get_bookings_query rn) with
        | error e => rw [hex] at hok; simp at hok
        | ok rows =>
          rw [hex] at hok
          simp only [Except.ok.injEq, Option.some.injEq] at hok
          subst hok
          intro r hr
          obtain ⟨row, _, hrow⟩ := List.mem_map.mp hr
          subst hrow
          refine ⟨rfl, ?_⟩
          intro kv _
          cases hkv : kv.2 with
          | none => exact Or.inl rfl
          | some s => exact Or.inr ⟨s, rfl⟩

/-- Witness for C7: the unfiltered listing over the seeded store. -/
theorem C7_witness :
    (Connection.get_bookings seedConn none).2 =
      .ok (some [_create_booking_object bkStage, _create_booking_object bkChill]) ∧
    ∀ r ∈ [_create_booking_object bkStage, _create_booking_object bkChill],
      r.map Prod.fst =
        ["roomname", "date", "time", "firstname", "lastname", "email",
         "contactnumber"] ∧
      ∀ kv ∈ r, kv.2 = none ∨ ∃ s, kv.2 = some s :=
  ⟨rfl, C7_confirmed seedConn none
    [_create_booking_object bkStage, _create_booking_object bkChill] rfl⟩

/-- Claim C8: when the store reports a failure during
check_foreign_keys_status, the session is first closed (changes committed,
native connection released) and that failure is re-raised; with no failure
it returns whether the foreign-keys pragma is on. -/
theorem C8_confirmed (h : DBHandle) (hcl : h.closed = false) :
    (h.failing = true →
      Connection.check_foreign_keys_status ⟨some h⟩ =
        (⟨some { h with committed := h.current, closed := true }⟩,
         .error .storeFailure)) ∧
    (h.failing = false →
      Connection.check_foreign_keys_status ⟨some h⟩ =
        (⟨some h⟩, .ok h.foreignKeys)) := by
  constructor
  · intro hf
    simp [Connection.check_foreign_keys_status, hcl, hf]
  · intro hf
    simp only [Connection.check_foreign_keys_status, hcl, hf]
    cases hk : h.foreignKeys <;> simp

/-- Witness for C8: a failing engine over the seeded store. -/
theorem C8_witness :
    closedHandle.closed = true ∧ failHandle.closed = false ∧
    Connection.check_foreign_keys_status ⟨some failHandle⟩ =
      (⟨some { failHandle with committed := failHandle.current, closed := true }⟩,
       .error .storeFailure) :=
  ⟨rfl, rfl, (C8_confirmed failHandle rfl).1 rfl⟩

/-- Claim C9 as stated is false: the guard `if self.con:` only protects a
null/never-set attribute, but `close()` never clears the attribute, so a
second call finds the (truthy) closed handle and its `commit()` raises a
ProgrammingError.  Concretely: closing a fresh session succeeds, closing it
again raises. -/
theorem C9_counterexample :
    (Connection.close seedConn).2 = .ok () ∧
    ((Connection.close seedConn).1.close).2 =
      .error (.sqlProgramming closedMsg) :=
  ⟨rfl, rfl⟩

/-- Claim C9 amended: the null/undefined guard makes close() on a null,
never-opened handle attribute return without raising and without changing
anything; it does not make close() idempotent — on an already-closed handle
the attribute still references the closed connection, so close() raises a
ProgrammingError from its commit. -/
theorem C9_corrected :
    Connection.close ⟨none⟩ = (⟨none⟩, .ok ()) ∧
    ∀ h : DBHandle, h.closed = true →
      Connection.close ⟨some h⟩ =
        (⟨some h⟩, .error (.sqlProgramming closedMsg)) := by
  refine ⟨rfl, ?_⟩
  intro h hc
  simp [Connection.close, hc]

/-- Witness for C9: the already-closed handle over the seeded store. -/
theorem C9_witness :
    closedHandle.closed = true ∧
    Connection.close ⟨some closedHandle⟩ =
      (⟨some closedHandle⟩, .error (.sqlProgramming closedMsg)) :=
  ⟨rfl, C9_corrected.2 closedHandle rfl⟩

/-- The session's foreign-keys pragma is on. -/
def fkOn (c : Connection) : Prop := ∃ h, c.con = some h ∧ h.foreignKeys = true

/-- Claim C10: add_user, delete_user and get_bookings all call
set_foreign_keys_support before touching data, so whenever any of them
returns normally the session's foreign-keys pragma is on, whatever it was
before the call. -/
theorem C10_confirmed (c : Connection) (u : String) (d : UserDict)
    (rn : Option String) :
    (∀ v, (Connection.add_user c u d).2 = .ok v →
      fkOn (Connection.add_user c u d).1) ∧
    (∀ v, (Connection.delete_user c u).2 = .ok v →
      fkOn (Connection.delete_user c u).1) ∧
    (∀ v, (Connection.get_bookings c rn).2 = .ok v →
      fkOn (Connection.get_bookings c rn).1) := by
  obtain ⟨con⟩ := c
  cases con with
  | none =>
    refine ⟨?_, ?_, ?_⟩ <;> intro v hv <;>
      simp [Connection.add_user, Connection.delete_user,
        Connection.get_bookings] at hv
  | some h =>
    by_cases hcl : h.closed = true
    · refine ⟨?_, ?_, ?_⟩ <;> intro v hv <;>
        simp [Connection.add_user, Connection.delete_user,
          Connection.get_bookings, hcl] at hv
    · by_cases hfl : h.failing = true
      · refine ⟨?_, ?_, ?_⟩ <;> intro v hv <;>
          simp [Connection.add_user, Connection.delete_user,
            Connection.get_bookings, hcl, hfl] at hv
      · refine ⟨?_, ?_, ?_⟩ <;> intro v hv
        · cases hfind : h.current.users.find? (fun x => x.username == u) with
          | none =>
            simp [Connection.add_user, hcl, hfl, hfind]
            exact ⟨_, rfl, rfl⟩
          | some x =>
            simp [Connection.add_user, hcl, hfl, hfind]
            exact ⟨_, rfl, rfl⟩
        · by_cases hlt :
            h.current.users.length -
              (h.current.users.filter (fun x => !(x.username == u))).length < 1 <;>
            · simp [Connection.delete_user, hcl, hfl, hlt]
              exact ⟨_, rfl, rfl⟩
        · rw [Bool.not_eq_true] at hcl hfl
          have hpost : (Connection.get_bookings ⟨some h⟩ rn).1 =
              ⟨some { h with foreignKeys := true }⟩ := by
            simp only [Connection.get_bookings, hcl, hfl, Bool.false_eq_true,
              if_false]
            split <;> rfl
          rw [hpost]
          exact ⟨_, rfl, rfl⟩

/-- Witness for C10: adding a fresh user to the seeded session, whose
pragma starts off. -/
theorem C10_witness :
    seedHandle.foreignKeys = false ∧
    (Connection.add_user seedConn "newuser" emptyUserDict).2 =
      .ok (some "newuser") ∧
    fkOn (Connection.add_user seedConn "newuser" emptyUserDict).1 :=
  ⟨rfl, rfl, (C10_confirmed seedConn "newuser" emptyUserDict none).1 _ rfl⟩

end Reservation
